import Mathlib

/-!
Shallow embedding of the packaging descriptor setup.py of the
gerrit_view repository, and proofs of its specified properties.

File contents are modelled as lists of characters (one Char per byte of
the file, since the sources open their files in binary mode).  The
filesystem seen by the build is a partial map from file names to
contents; a file that the map sends to none cannot be opened, which the
sources surface as an IOError (called FileAccessError in the design
document).  Errors are modelled with Except, the error value naming the
file that could not be opened.
-/

namespace GerritView

/-- The characters stripped by the strip method of Python byte strings:
space, tab, newline, carriage return, vertical tab and form feed. -/
def isPyWS (c : Char) : Bool :=
  c = ' ' || c = '\t' || c = '\n' || c = '\r' || c = '\x0B' || c = '\x0C'

/-- line.strip of the source: remove leading and trailing whitespace. -/
def pyStrip (s : List Char) : List Char :=
  ((s.dropWhile isPyWS).reverse.dropWhile isPyWS).reverse

/-- Iterating a file handle opened in binary mode yields its content cut
after every newline byte, a final fragment without a newline included. -/
def pyLines : List Char → List (List Char)
  | [] => []
  | c :: cs =>
    if c = '\n' then ['\n'] :: pyLines cs
    else
      match pyLines cs with
      | [] => [[c]]
      | l :: ls => (c :: l) :: ls

/-- line.startswith of the source applied to the comment marker. -/
def startsWithHash : List Char → Bool
  | '#' :: _ => true
  | _ => false

/-- The loop body of the function named with a leading underscore and
the word requirements in setup.py: for each line, strip it, skip it when
the result is empty or begins with the comment marker, otherwise append
it to the accumulated list. -/
def reqLoop : List (List Char) → List (List Char) → List (List Char)
  | [], reqs => reqs
  | line :: rest, reqs =>
    let l := pyStrip line
    if l.isEmpty || startsWithHash l then reqLoop rest reqs
    else reqLoop rest (reqs ++ [l])

/-- The requirements reader of setup.py applied to the content of the
requirements file: iterate the lines, starting from an empty list. -/
def requirementsOf (content : List Char) : List (List Char) :=
  reqLoop (pyLines content) []

/-- The description loader of setup.py applied to the content of the
README file: fh.read returns the whole content unchanged. -/
def longDescriptionOf (content : List Char) : List Char :=
  content

/-- Whether a path begins with the POSIX separator. -/
def headIsSlash (s : String) : Bool :=
  match s.toList with
  | '/' :: _ => true
  | _ => false

/-- Whether a path ends with the POSIX separator. -/
def lastIsSlash (s : String) : Bool :=
  match s.toList.reverse with
  | '/' :: _ => true
  | _ => false

/-- os.path.join for two POSIX path segments, as used in setup.py: an
absolute second segment replaces the first, otherwise the segments are
joined with exactly one separator between them. -/
def pyJoin (a b : String) : String :=
  if headIsSlash b then b
  else if a = "" then b
  else if lastIsSlash a then a ++ b
  else a ++ "/" ++ b

/-- The path helper of setup.py: join the directory of the descriptor
itself with the given relative file name. -/
def pathOf (baseDir : String) (fn : String) : String :=
  pyJoin baseDir fn

/-- The filesystem visible to the build: file name to content, none
meaning the file cannot be opened. -/
def FS : Type := String → Option (List Char)

/-- A filesystem holding at most the requirements file and the README. -/
def mkFS (req rd : Option (List Char)) : FS :=
  fun fn =>
    if fn = "requirements.txt" then req
    else if fn = "README.rst" then rd
    else none

/-- The requirements reader with its file access: opening the
requirements file fails with a FileAccessError when the file is absent,
otherwise the content is parsed line by line. -/
def requirementsRead (fs : FS) : Except String (List (List Char)) :=
  match fs "requirements.txt" with
  | none => Except.error "requirements.txt"
  | some c => Except.ok (requirementsOf c)

/-- The description loader with its file access: opening the README
fails with a FileAccessError when the file is absent, otherwise the
whole content is returned. -/
def longDescriptionRead (fs : FS) : Except String (List Char) :=
  match fs "README.rst" with
  | none => Except.error "README.rst"
  | some c => Except.ok (longDescriptionOf c)

/-- The manifest assembled by the setup call: every keyword argument of
the call is a field. -/
structure PackageManifest where
  name : String
  version : String
  description : String
  author : String
  authorEmail : String
  url : String
  scripts : List String
  license : String
  installRequires : List (List Char)
  classifiers : List String
  keywords : String
  longDescription : List Char
  deriving Repr, DecidableEq

/-- The setup call of setup.py.  Its arguments are evaluated from left
to right, so the requirements file is opened and fully parsed before the
README is opened; the second component records, in order, the files the
call opened.  A failed open aborts the call with the FileAccessError and
no manifest. -/
def setupRun (baseDir : String) (fs : FS) :
    Except String PackageManifest × List String :=
  match fs "requirements.txt" with
  | none => (Except.error "requirements.txt", ["requirements.txt"])
  | some rc =>
    match fs "README.rst" with
    | none => (Except.error "README.rst", ["requirements.txt", "README.rst"])
    | some dc =>
      (Except.ok
        { name := "gerrit-view"
          version := "0.1"
          description := "Gerrit viewer tools"
          author := "Joshua Harlow"
          authorEmail := "harlowja@yahoo-inc.com"
          url := "http://github.com/harlowja/gerrit_view/"
          scripts := [pathOf baseDir (pyJoin "scripts" "cgerrit"),
                      pathOf baseDir (pyJoin "scripts" "qgerrit")]
          license := "ASL 2.0"
          installRequires := requirementsOf rc
          classifiers := ["Development Status :: 4 - Beta",
                          "Topic :: Utilities",
                          "License :: OSI Approved :: Apache Software License",
                          "Operating System :: POSIX :: Linux",
                          "Programming Language :: Python"]
          keywords := "gerrit curses urwid console"
          longDescription := longDescriptionOf dc },
       ["requirements.txt", "README.rst"])

/-! ### Helper lemmas -/

theorem dropWhile_idem (p : Char → Bool) (l : List Char) :
    (l.dropWhile p).dropWhile p = l.dropWhile p := by
  induction l with
  | nil => rfl
  | cons a t ih =>
    by_cases h : p a = true
    · rw [List.dropWhile_cons_of_pos h]; exact ih
    · rw [List.dropWhile_cons_of_neg h, List.dropWhile_cons_of_neg h]

theorem dropWhile_append_singleton (p : Char → Bool) (l : List Char) (a : Char)
    (ha : p a = false) :
    (l ++ [a]).dropWhile p = l.dropWhile p ++ [a] := by
  induction l with
  | nil => simp [List.dropWhile_cons, ha]
  | cons x xs ih =>
    by_cases hx : p x = true
    · rw [List.cons_append, List.dropWhile_cons_of_pos hx,
        List.dropWhile_cons_of_pos hx, ih]
    · rw [List.cons_append, List.dropWhile_cons_of_neg hx,
        List.dropWhile_cons_of_neg hx, List.cons_append]

theorem dropWhile_rev_preserves (p : Char → Bool) (l : List Char)
    (h : l.dropWhile p = l) :
    ((l.reverse.dropWhile p).reverse).dropWhile p
      = (l.reverse.dropWhile p).reverse := by
  cases l with
  | nil => rfl
  | cons a t =>
    have ha : p a = false := by
      by_contra hpa
      have hpa' : p a = true := by
        cases hp : p a
        · exact absurd hp hpa
        · rfl
      rw [List.dropWhile_cons_of_pos hpa'] at h
      have := (List.dropWhile_sublist (l := t) p).length_le
      rw [h] at this
      simp at this
    rw [List.reverse_cons, dropWhile_append_singleton p t.reverse a ha,
      List.reverse_append]
    simp only [List.reverse_cons, List.reverse_nil, List.nil_append,
      List.singleton_append]
    rw [List.dropWhile_cons_of_neg (by rw [ha]; exact Bool.false_ne_true)]

theorem pyStrip_idem (s : List Char) : pyStrip (pyStrip s) = pyStrip s := by
  have hfront : (s.dropWhile isPyWS).dropWhile isPyWS = s.dropWhile isPyWS :=
    dropWhile_idem isPyWS s
  have hB := dropWhile_rev_preserves isPyWS (s.dropWhile isPyWS) hfront
  show pyStrip (((s.dropWhile isPyWS).reverse.dropWhile isPyWS).reverse) = _
  unfold pyStrip
  rw [hB, List.reverse_reverse, dropWhile_idem]

/-- The filter form of the requirements loop: appending to the
accumulator builds exactly the stripped kept lines, in order. -/
theorem reqLoop_eq_filter (lines : List (List Char)) : ∀ acc,
    reqLoop lines acc
      = acc ++ (lines.map pyStrip).filter
          (fun l => !(l.isEmpty || startsWithHash l)) := by
  induction lines with
  | nil => intro acc; simp [reqLoop]
  | cons line rest ih =>
    intro acc
    simp only [reqLoop, List.map_cons, List.filter_cons]
    by_cases h : ((pyStrip line).isEmpty || startsWithHash (pyStrip line)) = true
    · simp only [h, if_pos h, Bool.not_true, ih, List.append_assoc]
      simp
    · have h' : ((pyStrip line).isEmpty || startsWithHash (pyStrip line)) = false := by
        cases hb : ((pyStrip line).isEmpty || startsWithHash (pyStrip line))
        · rfl
        · exact absurd hb h
      simp only [h', if_neg h, Bool.not_false, ih, List.append_assoc]
      simp

theorem requirementsOf_eq_filter (content : List Char) :
    requirementsOf content
      = ((pyLines content).map pyStrip).filter
          (fun l => !(l.isEmpty || startsWithHash l)) := by
  unfold requirementsOf
  rw [reqLoop_eq_filter]
  simp

/-- A filesystem in which both input files exist and are empty. -/
def sampleFS : FS := mkFS (some []) (some [])

/-- A filesystem in which no file can be opened. -/
def absentFS : FS := fun _ => none

/-- The manifest the setup call produces on sampleFS with base directory
the empty string. -/
def sampleManifest : PackageManifest :=
  { name := "gerrit-view"
    version := "0.1"
    description := "Gerrit viewer tools"
    author := "Joshua Harlow"
    authorEmail := "harlowja@yahoo-inc.com"
    url := "http://github.com/harlowja/gerrit_view/"
    scripts := ["scripts/cgerrit", "scripts/qgerrit"]
    license := "ASL 2.0"
    installRequires := []
    classifiers := ["Development Status :: 4 - Beta",
                    "Topic :: Utilities",
                    "License :: OSI Approved :: Apache Software License",
                    "Operating System :: POSIX :: Linux",
                    "Programming Language :: Python"]
    keywords := "gerrit curses urwid console"
    longDescription := [] }

/-! ### Claim theorems -/

/-- C1: the requirements reader processes the file line by line and
returns exactly the lines that, after stripping leading and trailing
whitespace, are non-empty and do not begin with the comment marker, each
in trimmed form, in the same relative order as in the file. -/
theorem requirements_line_filter (content : List Char) :
    requirementsOf content
      = ((pyLines content).map pyStrip).filter
          (fun l => !(l.isEmpty || startsWithHash l)) :=
  requirementsOf_eq_filter content

/-- C2: a line whose first non-whitespace character is not the comment
marker is kept whole in trimmed form, a mid-line comment marker and what
follows it included; no mid-line comment stripping happens. -/
theorem midline_hash_kept (content line : List Char)
    (h1 : line ∈ pyLines content)
    (h2 : pyStrip line ≠ [])
    (h3 : startsWithHash (pyStrip line) = false) :
    pyStrip line ∈ requirementsOf content := by
  rw [requirementsOf_eq_filter]
  refine List.mem_filter.mpr ⟨List.mem_map_of_mem pyStrip h1, ?_⟩
  simp only [Bool.not_eq_true', Bool.or_eq_false_iff]
  exact ⟨by simpa using h2, h3⟩

/-- C2 witness: a concrete line with a mid-line comment marker is kept
whole. -/
theorem midline_hash_kept_witness :
    "pkg==1.0  # pinned\n".toList ∈ pyLines ("pkg==1.0  # pinned\n".toList) ∧
    pyStrip ("pkg==1.0  # pinned\n".toList)
      ∈ requirementsOf ("pkg==1.0  # pinned\n".toList) :=
  ⟨by decide, midline_hash_kept _ _ (by decide) (by decide) (by decide)⟩

/-- C3: on the concrete file content of the scenario, the requirements
reader returns exactly the two specifiers, in order. -/
theorem requirements_scenario :
    requirementsOf ("\n# comment\n  \nrequests>=2.0\nurwid\n".toList)
      = ["requests>=2.0".toList, "urwid".toList] := by decide

/-- C4: the description loader returns the file content byte-identical,
with no trimming and no transformation; a two-line file comes back
exactly, and an empty file yields the empty blob without error. -/
theorem long_description_byte_identical :
    (∀ c : List Char, longDescriptionOf c = c) ∧
    longDescriptionRead (mkFS none (some ("Hello\nWorld\n".toList)))
      = Except.ok ("Hello\nWorld\n".toList) ∧
    longDescriptionRead (mkFS none (some [])) = Except.ok [] :=
  ⟨fun _ => rfl, rfl, rfl⟩

/-- C5: manifest assembly is all-or-nothing: a manifest is produced
exactly when both the requirements file and the README can be opened,
and otherwise the run ends in a FileAccessError with no manifest. -/
theorem setup_all_or_nothing (baseDir : String) (fs : FS) :
    (∃ m, (setupRun baseDir fs).1 = Except.ok m) ↔
      (fs "requirements.txt").isSome ∧ (fs "README.rst").isSome := by
  cases h1 : fs "requirements.txt" <;> cases h2 : fs "README.rst" <;>
    simp [setupRun, h1, h2]

/-- C6: an existing but empty requirements file is parsed successfully
into the empty dependency list, not an error. -/
theorem empty_requirements_ok :
    requirementsOf [] = [] ∧
    requirementsRead (mkFS (some []) none) = Except.ok [] :=
  ⟨rfl, rfl⟩

/-- C7: manifest assembly is deterministic: two runs over filesystems
that agree on the contents of the two input files produce the same
outcome, manifest and all fields included. -/
theorem setup_deterministic (baseDir : String) (fs1 fs2 : FS)
    (hreq : fs1 "requirements.txt" = fs2 "requirements.txt")
    (hrd : fs1 "README.rst" = fs2 "README.rst") :
    setupRun baseDir fs1 = setupRun baseDir fs2 := by
  unfold setupRun
  rw [hreq, hrd]

/-- C7 witness: the determinism theorem applied at a concrete
filesystem. -/
theorem setup_deterministic_witness :
    sampleFS "requirements.txt" = sampleFS "requirements.txt" ∧
    setupRun "" sampleFS = setupRun "" sampleFS :=
  ⟨rfl, setup_deterministic "" sampleFS sampleFS rfl rfl⟩

/-- C8: every successfully produced manifest carries the fixed identity
fields and registers exactly the two entry-point scripts under the
scripts subdirectory of the descriptor directory. -/
theorem manifest_fixed_fields (baseDir : String) (fs : FS)
    (m : PackageManifest) (h : (setupRun baseDir fs).1 = Except.ok m) :
    m.name = "gerrit-view" ∧ m.version = "0.1" ∧ m.license = "ASL 2.0" ∧
    m.keywords = "gerrit curses urwid console" ∧
    m.scripts = [pathOf baseDir (pyJoin "scripts" "cgerrit"),
                 pathOf baseDir (pyJoin "scripts" "qgerrit")] := by
  cases h1 : fs "requirements.txt" with
  | none => simp [setupRun, h1] at h
  | some rc =>
    cases h2 : fs "README.rst" with
    | none => simp [setupRun, h1, h2] at h
    | some dc =>
      simp only [setupRun, h1, h2, Except.ok.injEq] at h
      subst h
      exact ⟨rfl, rfl, rfl, rfl, rfl⟩

/-- C8 witness: the fixed-field theorem applied at a concrete
filesystem and base directory. -/
theorem manifest_fixed_fields_witness :
    (setupRun "" sampleFS).1 = Except.ok sampleManifest ∧
    (sampleManifest.name = "gerrit-view" ∧ sampleManifest.version = "0.1" ∧
     sampleManifest.license = "ASL 2.0" ∧
     sampleManifest.keywords = "gerrit curses urwid console" ∧
     sampleManifest.scripts = [pathOf "" (pyJoin "scripts" "cgerrit"),
                               pathOf "" (pyJoin "scripts" "qgerrit")]) :=
  ⟨rfl, manifest_fixed_fields "" sampleFS sampleManifest rfl⟩

/-- C9: every element of the dependency list is non-empty, is a fixed
point of stripping (so has no leading or trailing whitespace), and does
not begin with the comment marker, for every input content. -/
theorem requirements_output_invariant (content r : List Char)
    (h : r ∈ requirementsOf content) :
    r ≠ [] ∧ pyStrip r = r ∧ startsWithHash r = false := by
  rw [requirementsOf_eq_filter] at h
  obtain ⟨hmem, hp⟩ := List.mem_filter.mp h
  obtain ⟨l, _, rfl⟩ := List.mem_map.mp hmem
  simp only [Bool.not_eq_true', Bool.or_eq_false_iff] at hp
  refine ⟨?_, pyStrip_idem l, hp.2⟩
  intro hnil
  rw [hnil] at hp
  simpa using hp.1

/-- C9 witness: the invariant theorem applied to a concrete element of a
concrete run. -/
theorem requirements_output_invariant_witness :
    "a".toList ∈ requirementsOf ("a\n".toList) ∧
    ("a".toList ≠ [] ∧ pyStrip ("a".toList) = "a".toList ∧
     startsWithHash ("a".toList) = false) :=
  ⟨by decide,
   requirements_output_invariant ("a\n".toList) ("a".toList) (by decide)⟩

/-- C10: the requirements file is opened first; the README is opened
only after the requirements read succeeded, so a failed requirements
read means the README is never opened. -/
theorem requirements_before_readme (baseDir : String) (fs : FS) :
    ((setupRun baseDir fs).2 = ["requirements.txt"] ∨
     (setupRun baseDir fs).2 = ["requirements.txt", "README.rst"]) ∧
    (fs "requirements.txt" = none →
      (setupRun baseDir fs).2 = ["requirements.txt"]) := by
  cases h1 : fs "requirements.txt" <;> cases h2 : fs "README.rst" <;>
    simp [setupRun, h1, h2]

/-- C10 witness: on a filesystem without a requirements file, only that
file is ever opened. -/
theorem requirements_before_readme_witness :
    absentFS "requirements.txt" = none ∧
    (setupRun "" absentFS).2 = ["requirements.txt"] :=
  ⟨rfl, (requirements_before_readme "" absentFS).2 rfl⟩

end GerritView
